import Mathlib

/-
Verification development for scripts/patch_linux.py.

The script patches an Electron webview bundle by applying a fixed list of
regex-based PatchRule transformations (apply_rule, lines 70-91) and then, in
a real run, writing the patched bundle, validating it, repacking and
performing a backup-then-overwrite of the archive (main, lines 254-320).

The embedding below models:
  - Python regular-expression matching for the constructs actually used by
    the rules we reason about (literals, the greedy word class, named
    groups over the word class, backreferences, alternation), with
    Python semantics: leftmost-first backtracking, greedy quantifiers,
    left-biased alternation, and non-overlapping left-to-right scanning
    shared by re.Pattern.search, re.Pattern.finditer and re.Pattern.subn.
  - PatchRule and apply_rule, translated clause by clause from the source.
  - The orchestration loop of main together with its persistence steps
    (bundle write, node syntax check, beautify, repack, backup write,
    archive overwrite), with the external collaborators' success or failure
    abstracted into a World record and the performed side effects recorded
    as an explicit effect list.
-/

/-- Capture environment of one match attempt: named groups captured so far,
most recently bound first (group names are unique inside each pattern). -/
abbrev CapEnv := List (String × List Char)

/-- Python `\w` on the ASCII texts the script manipulates:
letters, digits and underscore. -/
def isWordChar (c : Char) : Bool :=
  c.isAlphanum || c == '_'

/-- Split a text into its maximal leading run of word characters and the rest. -/
def takeWord : List Char → List Char × List Char
  | [] => ([], [])
  | c :: cs =>
      if isWordChar c then
        let p := takeWord cs
        (c :: p.1, p.2)
      else
        ([], c :: cs)

/-- Python `\s` on the ASCII texts the script manipulates. -/
def isSpaceChar (c : Char) : Bool :=
  c == ' ' || c == '\t' || c == '\n' || c == '\r' || c == '\x0b' || c == '\x0c'

/-- Python `\d` on the ASCII texts the script manipulates. -/
def isDigitChar (c : Char) : Bool :=
  c.isDigit

/-- Split a text into its maximal leading run of characters of a class and
the rest. -/
def takeClass (p : Char → Bool) : List Char → List Char × List Char
  | [] => ([], [])
  | c :: cs =>
      if p c then
        let q := takeClass p cs
        (c :: q.1, q.2)
      else
        ([], c :: cs)

/-- Abstract syntax of the regular-expression fragment used by the patch rules:
literal text, greedy `\w+`, a named group `(?P<name>\w+)` capturing a greedy
word run, a backreference `(?P=name)`, greedy `\s*`, `\s+` and `\d+`, a
greedy optional group `(?:...)?`, alternation and sequencing. -/
inductive RE where
  | eps
  | lit (cs : List Char)
  | word
  | wgroup (nm : String)
  | backref (nm : String)
  | spaces
  | spaces1
  | digits1
  | opt (r : RE)
  | alt (a b : RE)
  | seq (a b : RE)

/-- Sequence a list of regex fragments. -/
def seqs (l : List RE) : RE :=
  l.foldr RE.seq RE.eps

/-- All ways a regex can match a prefix of the input, as (remaining suffix,
capture environment) pairs, in Python backtracking preference order:
greedy word runs longest first, alternation left branch first, sequencing
lexicographic.  A Python regex engine returns the first entry. -/
def reMatch : RE → List Char → CapEnv → List (List Char × CapEnv)
  | .eps, s, env => [(s, env)]
  | .lit cs, s, env =>
      if cs.isPrefixOf s then [(s.drop cs.length, env)] else []
  | .word, s, env =>
      let p := takeWord s
      (List.range p.1.length).map (fun i => (p.1.drop (p.1.length - i) ++ p.2, env))
  | .wgroup nm, s, env =>
      let p := takeWord s
      (List.range p.1.length).map (fun i =>
        (p.1.drop (p.1.length - i) ++ p.2, (nm, p.1.take (p.1.length - i)) :: env))
  | .backref nm, s, env =>
      match env.lookup nm with
      | some cs => if cs.isPrefixOf s then [(s.drop cs.length, env)] else []
      | none => []
  | .spaces, s, env =>
      let p := takeClass isSpaceChar s
      (List.range (p.1.length + 1)).map (fun i => (p.1.drop (p.1.length - i) ++ p.2, env))
  | .spaces1, s, env =>
      let p := takeClass isSpaceChar s
      (List.range p.1.length).map (fun i => (p.1.drop (p.1.length - i) ++ p.2, env))
  | .digits1, s, env =>
      let p := takeClass isDigitChar s
      (List.range p.1.length).map (fun i => (p.1.drop (p.1.length - i) ++ p.2, env))
  | .opt r, s, env => reMatch r s env ++ [(s, env)]
  | .alt a b, s, env => reMatch a s env ++ reMatch b s env
  | .seq a b, s, env => (reMatch a s env).flatMap (fun p => reMatch b p.1 p.2)

/-- The leftmost match of a regex at the start of the input, if any,
as (number of characters consumed, capture environment). -/
def matchOne (r : RE) (s : List Char) : Option (Nat × CapEnv) :=
  match reMatch r s [] with
  | [] => none
  | (rest, env) :: _ => some (s.length - rest.length, env)

/-- Prepend a character of unmatched text to a scan result
(it becomes part of the gap before the next match, or of the trailing text). -/
def addGap (c : Char) :
    List (List Char × List Char × CapEnv) × List Char →
    List (List Char × List Char × CapEnv) × List Char
  | ([], tr) => ([], c :: tr)
  | ((g, m, e) :: segs, tr) => ((c :: g, m, e) :: segs, tr)

/-- Left-to-right non-overlapping scan, the common engine behind
re.Pattern.search, finditer and subn: at each position try a match; on a
non-empty match record it and resume after it, on an empty match record it
and advance one character, otherwise advance one character.  The result is
the list of segments (gap before the match, matched text, captures) plus the
trailing unmatched text.  Fuel is the input length plus one, enough to also
probe the end-of-text position as Python does. -/
def scanAux (r : RE) : Nat → List Char → List (List Char × List Char × CapEnv) × List Char
  | 0, s => ([], s)
  | _ + 1, [] =>
      match matchOne r [] with
      | some p => ([([], [], p.2)], [])
      | none => ([], [])
  | fuel + 1, c :: rest =>
      match matchOne r (c :: rest) with
      | none => addGap c (scanAux r fuel rest)
      | some (0, env) =>
          let res := addGap c (scanAux r fuel rest)
          (([], [], env) :: res.1, res.2)
      | some (len + 1, env) =>
          let res := scanAux r fuel ((c :: rest).drop (len + 1))
          (([], (c :: rest).take (len + 1), env) :: res.1, res.2)

/-- All non-overlapping matches of a regex in a text, with the surrounding
segmentation of the text. -/
def RE.scan (r : RE) (s : List Char) : List (List Char × List Char × CapEnv) × List Char :=
  scanAux r (s.length + 1) s

/-- len(list(p.finditer(text))). -/
def RE.count (r : RE) (s : String) : Nat :=
  (r.scan s.data).1.length

/-- Truthiness of p.search(text). -/
def RE.search (r : RE) (s : String) : Bool :=
  !(r.scan s.data).1.isEmpty

/-- p.subn(repl, text) for a callable replacement: every non-overlapping
match is replaced by the replacement function applied to its captures;
returns the new text and the number of substitutions made. -/
def RE.subn (r : RE) (repl : CapEnv → List Char) (s : String) : String × Nat :=
  let res := r.scan s.data
  (String.mk ((res.1.flatMap (fun seg => seg.1 ++ repl seg.2.2)) ++ res.2), res.1.length)

/-- PatchRule (source lines 32-38): name, unpatched-state pattern, replacement
callable, optional patched-state pattern, expected replacement count. -/
structure PatchRule where
  name : String
  unpatched : RE
  replacement : CapEnv → List Char
  patched : Option RE := none
  expected_replacements : Nat := 1

/-- Truthiness of `rule.patched is not None and rule.patched.search(text)`. -/
def patchedMatches (rule : PatchRule) (text : String) : Bool :=
  match rule.patched with
  | some p => p.search text
  | none => false

/-- The RuntimeError message of the dry-run branch (source lines 79-81). -/
def matchCountMsg (rule : PatchRule) (count : Nat) : String :=
  rule.name ++ ": expected " ++ toString rule.expected_replacements ++
    " match(es), found " ++ toString count

/-- The RuntimeError message of the real-run branch (source lines 88-90). -/
def replacedCountMsg (rule : PatchRule) (replaced : Nat) : String :=
  rule.name ++ ": expected " ++ toString rule.expected_replacements ++
    " replacement(s), got " ++ toString replaced

/-- apply_rule (source lines 70-91).  A raised RuntimeError is modelled as
Except.error carrying the message; a normal return is Except.ok of the
returned (text, status) pair, with the status the literal Python string. -/
def apply_rule (text : String) (rule : PatchRule) (dry_run : Bool) :
    Except String (String × String) :=
  if patchedMatches rule text && !(rule.unpatched.search text) then
    .ok (text, "already")
  else if dry_run then
    let count := rule.unpatched.count text
    if count == 0 && patchedMatches rule text then
      .ok (text, "already")
    else if count ≠ rule.expected_replacements then
      .error (matchCountMsg rule count)
    else
      .ok (text, "would_apply")
  else
    let res := rule.unpatched.subn rule.replacement text
    if res.2 == 0 && patchedMatches rule text then
      .ok (text, "already")
    else if res.2 ≠ rule.expected_replacements then
      .error (replacedCountMsg rule res.2)
    else
      .ok (res.1, "applied")

/-- The unpatched pattern of the first declared rule (source lines 208-212):
if\((?P<item>\w+)\.type==="reasoning"\)\{(?P<buf>\w+)\&\&(?:
(?P=buf)\.push\((?P=item)\);continue|pt\("explored"\))\}
(?P=buf)\&\&(?P<close>\w+)\("explored"\)  (line breaks only here). -/
def exploration_unpatched : RE :=
  seqs [
    .lit "if(".data,
    .wgroup "item",
    .lit ".type===\"reasoning\")\x7b".data,
    .wgroup "buf",
    .lit "&&".data,
    .alt
      (seqs [.backref "buf", .lit ".push(".data, .backref "item", .lit ");continue".data])
      (.lit "pt(\"explored\")".data),
    .lit "\x7d".data,
    .backref "buf",
    .lit "&&".data,
    .wgroup "close",
    .lit "(\"explored\")".data ]

/-- The patched pattern of the first declared rule (source lines 213-215):
if\(\w+\.type==="reasoning"\)\{\w+\&\&(?P<close>\w+)\("explored"\)\}\w+\&\&(?P=close)\("explored"\). -/
def exploration_patched : RE :=
  seqs [
    .lit "if(".data,
    .word,
    .lit ".type===\"reasoning\")\x7b".data,
    .word,
    .lit "&&".data,
    .wgroup "close",
    .lit "(\"explored\")\x7d".data,
    .word,
    .lit "&&".data,
    .backref "close",
    .lit "(\"explored\")".data ]

/-- repl_exploration_drop_reasoning (source lines 163-170). -/
def repl_exploration_drop_reasoning (env : CapEnv) : List Char :=
  let item := (env.lookup "item").getD []
  let buf := (env.lookup "buf").getD []
  let close := (env.lookup "close").getD []
  "if(".data ++ item ++ ".type===\"reasoning\")\x7b".data ++ buf ++ "&&".data ++
    close ++ "(\"explored\")\x7d".data ++ buf ++ "&&".data ++ close ++ "(\"explored\")".data

/-- The first declared rule, exploration_continuation_drop_reasoning
(source lines 206-217). -/
def exploration_continuation_drop_reasoning : PatchRule :=
  { name := "exploration_continuation_drop_reasoning"
    unpatched := exploration_unpatched
    replacement := repl_exploration_drop_reasoning
    patched := some exploration_patched
    expected_replacements := 1 }

/-- The unpatched pattern of the second declared rule (source lines 220-222):
(?P<cb>\w+)=\(\)=>\{(?P<setter>\w+)\((?P<cond>\w+)\?"preview":"collapsed"\)\}. -/
def no_autocollapse_unpatched : RE :=
  seqs [
    .wgroup "cb",
    .lit "=()=>\x7b".data,
    .wgroup "setter",
    .lit "(".data,
    .wgroup "cond",
    .lit "?\"preview\":\"collapsed\")\x7d".data ]

/-- The patched pattern of the second declared rule (source line 223):
(?P<cb>\w+)=\(\)=>\{\w+\&\&\w+\("preview"\)\}. -/
def no_autocollapse_patched : RE :=
  seqs [
    .wgroup "cb",
    .lit "=()=>\x7b".data,
    .word,
    .lit "&&".data,
    .word,
    .lit "(\"preview\")\x7d".data ]

/-- repl_exploration_no_autocollapse (source lines 172-176). -/
def repl_exploration_no_autocollapse (env : CapEnv) : List Char :=
  let cb := (env.lookup "cb").getD []
  let cond := (env.lookup "cond").getD []
  let setter := (env.lookup "setter").getD []
  cb ++ "=()=>\x7b".data ++ cond ++ "&&".data ++ setter ++ "(\"preview\")\x7d".data

/-- The second declared rule, exploration_no_autocollapse_on_finish
(source lines 218-225). -/
def exploration_no_autocollapse_on_finish : PatchRule :=
  { name := "exploration_no_autocollapse_on_finish"
    unpatched := no_autocollapse_unpatched
    replacement := repl_exploration_no_autocollapse
    patched := some no_autocollapse_patched
    expected_replacements := 1 }

/-- The unpatched pattern of the third declared rule (source lines 228-230):
(?P<render>\w+)=(?P<child>\w+),(?P<item>\w+)\.type==="reasoning"&&\((?P=render)=null\). -/
def show_reasoning_unpatched : RE :=
  seqs [
    .wgroup "render",
    .lit "=".data,
    .wgroup "child",
    .lit ",".data,
    .wgroup "item",
    .lit ".type===\"reasoning\"&&(".data,
    .backref "render",
    .lit "=null)".data ]

/-- The patched pattern of the third declared rule (source line 231):
(?P<render>\w+)=(?P<child>\w+)\s*\}\s*let\s+\w+;\s*\w+\[\d+\]!==\1 —
the numeric backreference \1 refers to group 1, the named group render. -/
def show_reasoning_patched : RE :=
  seqs [
    .wgroup "render",
    .lit "=".data,
    .wgroup "child",
    .spaces,
    .lit "\x7d".data,
    .spaces,
    .lit "let".data,
    .spaces1,
    .word,
    .lit ";".data,
    .spaces,
    .word,
    .lit "[".data,
    .digits1,
    .lit "]!==".data,
    .backref "render" ]

/-- repl_show_reasoning_items (source lines 178-181). -/
def repl_show_reasoning_items (env : CapEnv) : List Char :=
  (env.lookup "render").getD [] ++ "=".data ++ (env.lookup "child").getD []

/-- The third declared rule, show_reasoning_items_in_log
(source lines 226-233). -/
def show_reasoning_items_in_log : PatchRule :=
  { name := "show_reasoning_items_in_log"
    unpatched := show_reasoning_unpatched
    replacement := repl_show_reasoning_items
    patched := some show_reasoning_patched
    expected_replacements := 1 }

/-- The unpatched pattern of the fourth declared rule (source lines 236-238):
if\(!(?P<stream>\w+)\)\{(?P<setter>\w+)\(!1\);return\}const (?P<el>\w+)=(?P<ref>\w+)\.current;. -/
def no_autocollapse_reasoning_unpatched : RE :=
  seqs [
    .lit "if(!".data,
    .wgroup "stream",
    .lit ")\x7b".data,
    .wgroup "setter",
    .lit "(!1);return\x7dconst ".data,
    .wgroup "el",
    .lit "=".data,
    .wgroup "ref",
    .lit ".current;".data ]

/-- The patched pattern of the fourth declared rule (source lines 239-241):
if\(!(?P<stream>\w+)\)\{return\}const (?P<el>\w+)=(?P<ref>\w+)\.current;. -/
def no_autocollapse_reasoning_patched : RE :=
  seqs [
    .lit "if(!".data,
    .wgroup "stream",
    .lit ")\x7breturn\x7dconst ".data,
    .wgroup "el",
    .lit "=".data,
    .wgroup "ref",
    .lit ".current;".data ]

/-- repl_no_autocollapse_reasoning (source lines 183-187). -/
def repl_no_autocollapse_reasoning (env : CapEnv) : List Char :=
  let stream := (env.lookup "stream").getD []
  let el := (env.lookup "el").getD []
  let ref := (env.lookup "ref").getD []
  "if(!".data ++ stream ++ ")\x7breturn\x7dconst ".data ++ el ++ "=".data ++
    ref ++ ".current;".data

/-- The fourth declared rule, reasoning_no_autocollapse_on_finish
(source lines 234-243). -/
def reasoning_no_autocollapse_on_finish : PatchRule :=
  { name := "reasoning_no_autocollapse_on_finish"
    unpatched := no_autocollapse_reasoning_unpatched
    replacement := repl_no_autocollapse_reasoning
    patched := some no_autocollapse_reasoning_patched
    expected_replacements := 1 }

/-- The unpatched pattern of the fifth declared rule (source lines 246-248):
const (?P<el>\w+)=(?P<ref>\w+)\.current;(?P=el)&&\((?:(?P=el)\.scrollHeight-
(?P=el)\.clientHeight-(?P=el)\.scrollTop<16\)&&\()?(?P=el)\.scrollTop=
(?P=el)\.scrollHeight\)  (line breaks only here). -/
def autoscroll_unpatched : RE :=
  seqs [
    .lit "const ".data,
    .wgroup "el",
    .lit "=".data,
    .wgroup "ref",
    .lit ".current;".data,
    .backref "el",
    .lit "&&(".data,
    .opt (seqs [
      .backref "el",
      .lit ".scrollHeight-".data,
      .backref "el",
      .lit ".clientHeight-".data,
      .backref "el",
      .lit ".scrollTop<16)&&(".data ]),
    .backref "el",
    .lit ".scrollTop=".data,
    .backref "el",
    .lit ".scrollHeight)".data ]

/-- The patched pattern of the fifth declared rule (source line 249):
__codexReasoningAutoScrollInit. -/
def autoscroll_patched : RE :=
  .lit "__codexReasoningAutoScrollInit".data

/-- repl_autoscroll_user_scroll_flag (source lines 189-203). -/
def repl_autoscroll_user_scroll_flag (env : CapEnv) : List Char :=
  let el := (env.lookup "el").getD []
  let ref := (env.lookup "ref").getD []
  "const ".data ++ el ++ "=".data ++ ref ++ ".current;".data ++
    el ++ "&&(!".data ++ el ++ ".__codexReasoningAutoScrollInit&&(".data ++
    el ++ ".__codexReasoningAutoScrollInit=1,".data ++
    el ++ ".__codexReasoningAutoScrollEnabled=1,".data ++
    el ++ ".addEventListener(\"scroll\",()=>\x7b".data ++
    el ++ ".__codexReasoningAutoScrollEnabled=".data ++
    el ++ ".scrollHeight-".data ++ el ++ ".clientHeight-".data ++
    el ++ ".scrollTop<16".data ++
    "\x7d,\x7bpassive:!0\x7d)".data ++
    "),".data ++
    el ++ ".__codexReasoningAutoScrollEnabled&&(".data ++ el ++ ".scrollTop=".data ++
    el ++ ".scrollHeight))".data

/-- The fifth declared rule, reasoning_autoscroll_user_scroll_flag
(source lines 244-251). -/
def reasoning_autoscroll_user_scroll_flag : PatchRule :=
  { name := "reasoning_autoscroll_user_scroll_flag"
    unpatched := autoscroll_unpatched
    replacement := repl_autoscroll_user_scroll_flag
    patched := some autoscroll_patched
    expected_replacements := 1 }

/-- The declared rule list patches, in declaration order (source lines 205-252). -/
def patches : List PatchRule :=
  [exploration_continuation_drop_reasoning,
   exploration_no_autocollapse_on_finish,
   show_reasoning_items_in_log,
   reasoning_no_autocollapse_on_finish,
   reasoning_autoscroll_user_scroll_flag]

/-- The rule loop of main (source lines 266-269): fold the text forward
through apply_rule, accumulating (rule name, status) pairs in declaration
order; a raised RuntimeError aborts the loop at once. -/
def runRules : List PatchRule → String → Bool → List (String × String) →
    Except String (String × List (String × String))
  | [], text, _, acc => .ok (text, acc)
  | rule :: rest, text, dry, acc =>
      match apply_rule text rule dry with
      | .error e => .error e
      | .ok (t, st) => runRules rest t dry (acc ++ [(rule.name, st)])

/-- The externally visible side effects of main after the rule loop:
writing the patched bundle, running node --check, running js-beautify,
repacking the asar, writing the backup copy, overwriting the destination
archive (source lines 281-305). -/
inductive Effect where
  | writeBundle (text : String)
  | validate
  | beautify
  | repack
  | writeBackup
  | overwriteArchive
deriving DecidableEq

/-- Outcomes of the external collaborators main invokes through run_checked:
node --check, js-beautify and asar pack can each fail (nonzero exit). -/
structure World where
  validateOk : Bool
  beautifyOk : Bool
  repackOk : Bool

/-- What a run of main did: the side effects performed in order, the report
lines printed to stdout, and either an exit code or the uncaught error. -/
structure RunResult where
  effects : List Effect
  printed : List String
  outcome : Except String Nat

/-- The per-rule status report lines (source lines 271-272). -/
def statusLines (sts : List (String × String)) : List String :=
  sts.map (fun p => p.1 ++ ": " ++ p.2)

/-- The no-op report line (source line 278). -/
def noChangesMsg : String :=
  "No changes to write (all patches already applied)."

/-- main from the rule loop onward (source lines 265-320), with archive
extraction already done and original_js the bundle text that was read.
An uncaught RuntimeError — from apply_rule or from a failing collaborator —
ends the process before the remaining statements run; in particular a rule
failure aborts before the status print loop, and every failure before the
backup/overwrite pair leaves the destination archive untouched. -/
def main_model (w : World) (rules : List PatchRule) (original_js : String)
    (dry_run no_beautify : Bool) : RunResult :=
  match runRules rules original_js dry_run [] with
  | .error e => ⟨[], [], .error e⟩
  | .ok (text, sts) =>
      let pr := statusLines sts
      if dry_run then
        ⟨[], pr, .ok 0⟩
      else if text == original_js then
        ⟨[], pr ++ [noChangesMsg], .ok 0⟩
      else if !w.validateOk then
        ⟨[.writeBundle text, .validate], pr, .error "node --check failed"⟩
      else if !no_beautify && !w.beautifyOk then
        ⟨[.writeBundle text, .validate, .beautify], pr, .error "js-beautify failed"⟩
      else if !w.repackOk then
        ⟨[.writeBundle text, .validate] ++ (if no_beautify then [] else [.beautify]) ++
          [.repack], pr, .error "asar pack failed"⟩
      else
        ⟨[.writeBundle text, .validate] ++ (if no_beautify then [] else [.beautify]) ++
          [.repack, .writeBackup, .overwriteArchive],
         pr ++ ["PATCHED"], .ok 0⟩

/-- subn reports exactly as many substitutions as finditer finds matches:
both are the length of the same scan. -/
lemma subn_snd (r : RE) (f : CapEnv → List Char) (s : String) :
    (r.subn f s).2 = r.count s := rfl

/-- search is truthy exactly when finditer finds at least one match. -/
lemma search_false_iff_count_zero (r : RE) (s : String) :
    r.search s = false ↔ r.count s = 0 := by
  unfold RE.search RE.count
  cases (r.scan s.data).1 <;> simp [List.isEmpty]

/-- The guard of the first return of apply_rule. -/
def alreadyGuard (rule : PatchRule) (text : String) : Bool :=
  patchedMatches rule text && !(rule.unpatched.search text)

/-- When the patched pattern matches and the unpatched one does not,
apply_rule short-circuits to (text, already) in either mode. -/
lemma apply_rule_already_of_guard (text : String) (rule : PatchRule) (d : Bool)
    (h : alreadyGuard rule text = true) :
    apply_rule text rule d = .ok (text, "already") := by
  unfold apply_rule
  unfold alreadyGuard at h
  rw [h]
  rfl

/-- apply_rule returns status "already" exactly when the first guard holds,
and then the returned text is the input text: the later fallback "already"
branches fire only when the match count is zero, which already forces the
unpatched search to be falsy, hence the same guard. -/
lemma apply_rule_already_iff (text : String) (rule : PatchRule) (d : Bool) :
    apply_rule text rule d = .ok (text, "already") ↔ alreadyGuard rule text = true := by
  refine ⟨fun h => ?_, fun h => apply_rule_already_of_guard text rule d h⟩
  by_contra hg
  rw [Bool.not_eq_true] at hg
  have hfb : (rule.unpatched.count text == 0 && patchedMatches rule text) = false := by
    by_contra hfb
    rw [Bool.not_eq_false, Bool.and_eq_true, beq_iff_eq] at hfb
    obtain ⟨hc, hp⟩ := hfb
    have hs : rule.unpatched.search text = false := (search_false_iff_count_zero _ _).mpr hc
    unfold alreadyGuard at hg
    rw [hp, hs] at hg
    simp at hg
  unfold apply_rule at h
  unfold alreadyGuard at hg
  rw [hg] at h
  simp only [Bool.false_eq_true, if_false] at h
  cases d with
  | true =>
      simp only [if_true] at h
      rw [hfb] at h
      simp only [Bool.false_eq_true, if_false] at h
      by_cases hc : rule.unpatched.count text ≠ rule.expected_replacements
      · rw [if_pos hc] at h
        exact Except.noConfusion h
      · rw [if_neg hc] at h
        simp at h
  | false =>
      simp only [Bool.false_eq_true, if_false] at h
      rw [show (rule.unpatched.subn rule.replacement text).2 = rule.unpatched.count text from rfl,
        hfb] at h
      simp only [Bool.false_eq_true, if_false] at h
      by_cases hc : rule.unpatched.count text ≠ rule.expected_replacements
      · rw [if_pos hc] at h
        exact Except.noConfusion h
      · rw [if_neg hc] at h
        simp at h

/-- When the short-circuit guard fails, the fallback "already" guard
(zero matches plus patched evidence) fails as well: zero matches make the
unpatched search falsy, so patched evidence would have fired the guard. -/
lemma fallback_false_of_guard_false (text : String) (rule : PatchRule)
    (hg : alreadyGuard rule text = false) :
    (rule.unpatched.count text == 0 && patchedMatches rule text) = false := by
  by_contra hfb
  rw [Bool.not_eq_false, Bool.and_eq_true, beq_iff_eq] at hfb
  obtain ⟨hc, hp⟩ := hfb
  have hs : rule.unpatched.search text = false := (search_false_iff_count_zero _ _).mpr hc
  unfold alreadyGuard at hg
  rw [hp, hs] at hg
  simp at hg

/-- Evaluation of apply_rule when the short-circuit guard fails: the rule
errors exactly on a match-count mismatch, and otherwise reports would_apply
(dry run, text untouched) or applied (real run, substituted text). -/
lemma apply_rule_eval_of_guard_false (text : String) (rule : PatchRule) (d : Bool)
    (hg : alreadyGuard rule text = false) :
    apply_rule text rule d =
      if rule.unpatched.count text ≠ rule.expected_replacements then
        .error (if d then matchCountMsg rule (rule.unpatched.count text)
                else replacedCountMsg rule (rule.unpatched.count text))
      else if d then .ok (text, "would_apply")
      else .ok ((rule.unpatched.subn rule.replacement text).1, "applied") := by
  have hfb := fallback_false_of_guard_false text rule hg
  unfold apply_rule
  unfold alreadyGuard at hg
  rw [hg]
  cases d with
  | true =>
      simp only [Bool.false_eq_true, if_false, if_true]
      rw [hfb]
      simp only [Bool.false_eq_true, if_false]
  | false =>
      simp only [Bool.false_eq_true, if_false]
      rw [show (rule.unpatched.subn rule.replacement text).2 = rule.unpatched.count text
        from rfl, hfb]
      simp only [Bool.false_eq_true, if_false]

/-- A dry-run apply_rule never changes the text it returns. -/
lemma apply_rule_dry_text (text : String) (rule : PatchRule) (u s : String)
    (h : apply_rule text rule true = .ok (u, s)) : u = text := by
  by_cases hg : alreadyGuard rule text = true
  · rw [apply_rule_already_of_guard text rule true hg] at h
    injection h with h1
    exact (congrArg Prod.fst h1).symm
  · rw [Bool.not_eq_true] at hg
    rw [apply_rule_eval_of_guard_false text rule true hg] at h
    by_cases hc : rule.unpatched.count text ≠ rule.expected_replacements
    · rw [if_pos hc] at h
      exact Except.noConfusion h
    · rw [if_neg hc, if_pos rfl] at h
      injection h with h1
      exact (congrArg Prod.fst h1).symm

/-- A dry-run pass over any rule sequence returns the input text unchanged. -/
lemma runRules_dry_text (rules : List PatchRule) :
    ∀ text acc t' sts, runRules rules text true acc = .ok (t', sts) → t' = text := by
  induction rules with
  | nil =>
      intro text acc t' sts h
      unfold runRules at h
      injection h with h1
      exact (congrArg Prod.fst h1).symm
  | cons rule rest ih =>
      intro text acc t' sts h
      unfold runRules at h
      cases happ : apply_rule text rule true with
      | error e => rw [happ] at h; exact Except.noConfusion h
      | ok p =>
          obtain ⟨t1, st⟩ := p
          rw [happ] at h
          have h2 := ih t1 (acc ++ [(rule.name, st)]) t' sts h
          rw [h2]
          exact apply_rule_dry_text text rule t1 st happ

/-- Splitting the rule loop at a list append. -/
lemma runRules_append (xs ys : List PatchRule) (t : String) (d : Bool)
    (acc : List (String × String)) :
    runRules (xs ++ ys) t d acc =
      (runRules xs t d acc).bind (fun p => runRules ys p.1 d p.2) := by
  induction xs generalizing t acc with
  | nil => rfl
  | cons x xs ih =>
      simp only [List.cons_append, runRules]
      cases happ : apply_rule t x d with
      | error e => simp [happ, Except.bind]
      | ok p =>
          obtain ⟨t1, st⟩ := p
          simp only [happ, Except.bind]
          exact ih t1 (acc ++ [(x.name, st)])

/-- A constant (string-valued) replacement. -/
def constRepl (s : String) : CapEnv → List Char := fun _ => s.data

/-- Small concrete rules used to instantiate the general theorems. -/
def ruleA : PatchRule :=
  { name := "ruleA", unpatched := .lit "x".data, replacement := constRepl "y",
    patched := some (.lit "p".data) }

def ruleBoth : PatchRule :=
  { name := "ruleBoth", unpatched := .lit "a".data, replacement := constRepl "z",
    patched := some (.lit "ab".data) }

def ruleCount : PatchRule :=
  { name := "ruleCount", unpatched := .lit "a".data, replacement := constRepl "z" }

def ruleApply : PatchRule :=
  { name := "ruleApply", unpatched := .lit "a".data, replacement := constRepl "b",
    patched := some (.lit "b".data) }

def ruleFail : PatchRule :=
  { name := "ruleFail", unpatched := .lit "q".data, replacement := constRepl "y" }

/-- A world in which every external collaborator succeeds. -/
def wAll : World := ⟨true, true, true⟩

/-- A text on which the first declared rule misbehaves: the close callback
happens to be the identifier pt, which collides with the literal
pt\("explored"\) alternative inside the rule's unpatched pattern, so the
unpatched and patched patterns both match this (fully patched-looking) text. -/
def cexText : String :=
  "if(a.type===\"reasoning\")\x7bb&&pt(\"explored\")\x7db&&pt(\"explored\")"

/-- C1: for every rule whose patched matcher is defined and every text in
which the patched matcher matches and the unpatched matcher does not match,
apply_rule returns the input text unchanged with status ALREADY, in both
dry-run and real-run mode. -/
theorem C1_already_shortcircuit (text : String) (rule : PatchRule) (p : RE) (d : Bool)
    (hp : rule.patched = some p) (hm : p.search text = true)
    (hu : rule.unpatched.search text = false) :
    apply_rule text rule d = .ok (text, "already") := by
  apply apply_rule_already_of_guard
  simp [alreadyGuard, patchedMatches, hp, hm, hu]

theorem C1_witness : apply_rule "p" ruleA true = .ok ("p", "already") :=
  C1_already_shortcircuit "p" ruleA (.lit "p".data) true rfl rfl rfl

/-- C2 counterexample: a rule whose unpatched and patched matchers both match
the text, yet apply_rule does not fail — it silently reports would_apply in
dry-run mode and applies in real-run mode. -/
theorem C2_counterexample :
    ruleBoth.unpatched.search "ab" = true
  ∧ patchedMatches ruleBoth "ab" = true
  ∧ apply_rule "ab" ruleBoth false = .ok ("zb", "applied")
  ∧ apply_rule "ab" ruleBoth true = .ok ("ab", "would_apply") :=
  ⟨rfl, rfl, rfl, rfl⟩

/-- C2 amended: when a rule's unpatched and patched matchers both match,
apply_rule never classifies the text as ALREADY; it fails exactly when the
unpatched match count differs from expected_replacements, and otherwise
silently proceeds (would_apply in dry-run, applied in real-run). -/
theorem C2_amended_no_silent_already (text : String) (rule : PatchRule) (d : Bool)
    (hu : rule.unpatched.search text = true)
    (hp : patchedMatches rule text = true) :
    (∀ u, apply_rule text rule d ≠ .ok (u, "already"))
  ∧ ((∃ e, apply_rule text rule d = .error e) ↔
      rule.unpatched.count text ≠ rule.expected_replacements) := by
  have hg : alreadyGuard rule text = false := by
    simp [alreadyGuard, hu, hp]
  rw [apply_rule_eval_of_guard_false text rule d hg]
  by_cases hc : rule.unpatched.count text ≠ rule.expected_replacements
  · rw [if_pos hc]
    refine ⟨fun u h => Except.noConfusion h, ⟨fun _ => hc, fun _ => ⟨_, rfl⟩⟩⟩
  · rw [if_neg hc]
    cases d with
    | true =>
        rw [if_pos rfl]
        refine ⟨fun u h => ?_, ⟨fun he => absurd he.choose_spec (by simp), fun h => absurd h hc⟩⟩
        injection h with h1
        have := congrArg Prod.snd h1
        simp at this
    | false =>
        rw [if_neg (by simp)]
        refine ⟨fun u h => ?_, ⟨fun he => absurd he.choose_spec (by simp), fun h => absurd h hc⟩⟩
        injection h with h1
        have := congrArg Prod.snd h1
        simp at this

theorem C2_amended_witness : apply_rule "ab" ruleBoth false ≠ .ok ("ab", "already") :=
  (C2_amended_no_silent_already "ab" ruleBoth false rfl rfl).1 "ab"

/-- C3 counterexample: on cexText the declared rule
exploration_continuation_drop_reasoning real-runs to status APPLIED (so
cexText is a valid unpatched input in the claim's sense) and returns the
text unchanged, hence re-running apply_rule on the resulting text is the
very same computation and again yields APPLIED — never ALREADY.  The
pattern's literal pt\("explored"\) alternative keeps the unpatched matcher
matching the substituted text whenever the close callback is named pt. -/
theorem C3_counterexample :
    apply_rule cexText exploration_continuation_drop_reasoning false
      = .ok (cexText, "applied")
  ∧ ("applied" : String) ≠ "already" :=
  ⟨rfl, by decide⟩

/-- C3 amended: after a real-run APPLIED transition, re-running the rule on
the resulting text yields ALREADY with the text unchanged (in both modes),
provided the rule's patched matcher matches the resulting text and its
unpatched matcher no longer does — which the counterexample shows is not
guaranteed for every valid unpatched input of the declared rules. -/
theorem C3_amended_idempotent (t u : String) (rule : PatchRule) (p : RE)
    (_happ : apply_rule t rule false = .ok (u, "applied"))
    (hp : rule.patched = some p) (hpm : p.search u = true)
    (hum : rule.unpatched.search u = false) :
    apply_rule u rule false = .ok (u, "already")
  ∧ apply_rule u rule true = .ok (u, "already") := by
  have hg : alreadyGuard rule u = true := by
    simp [alreadyGuard, patchedMatches, hp, hpm, hum]
  exact ⟨apply_rule_already_of_guard u rule false hg,
    apply_rule_already_of_guard u rule true hg⟩

theorem C3_amended_witness :
    apply_rule "b" ruleApply false = .ok ("b", "already")
  ∧ apply_rule "b" ruleApply true = .ok ("b", "already") :=
  C3_amended_idempotent "a" "b" ruleApply (.lit "b".data) rfl rfl rfl rfl

/-- Whether an apply_rule result is a normal return with status "already". -/
def isAlreadyResult : Except String (String × String) → Bool
  | .ok p => p.2 == "already"
  | .error _ => false

/-- C4: for every rule, mode and text that is not classified ALREADY and
whose unpatched-matcher occurrence count differs from
expected_replacements, apply_rule fails with the match-count RuntimeError
of that mode; no substituted text is returned. -/
theorem C4_count_mismatch_fails (text : String) (rule : PatchRule) (d : Bool)
    (hna : isAlreadyResult (apply_rule text rule d) = false)
    (hc : rule.unpatched.count text ≠ rule.expected_replacements) :
    apply_rule text rule d =
      .error (if d then matchCountMsg rule (rule.unpatched.count text)
              else replacedCountMsg rule (rule.unpatched.count text)) := by
  by_cases hg : alreadyGuard rule text = true
  · rw [apply_rule_already_of_guard text rule d hg] at hna
    simp [isAlreadyResult] at hna
  · rw [Bool.not_eq_true] at hg
    rw [apply_rule_eval_of_guard_false text rule d hg, if_pos hc]

theorem C4_count_mismatch_witness :
    apply_rule "aa" ruleCount false = .error (replacedCountMsg ruleCount 2) :=
  C4_count_mismatch_fails "aa" ruleCount false rfl (by decide)

/-- C5 amended: per-rule dry-run/real-run classification equivalence on the
same text, plus dry-run purity: a rule reports WOULD_APPLY in dry-run
exactly when the real run would report APPLIED on that text, ALREADY
exactly when ALREADY, and an error exactly when an error; a dry-run apply
never changes the text, a dry-run pass over any rule sequence returns the
document unchanged, and a dry-run of the orchestrator performs no write or
archive effect at all.  Whole-sequence status equality does not hold: the
real run folds each rule's output forward while the dry run classifies
every rule against the original document, and the declared rules interfere
(see the counterexample below). -/
theorem C5_dry_run_purity :
    (∀ text rule, ((∃ u, apply_rule text rule true = .ok (u, "would_apply")) ↔
        (∃ u, apply_rule text rule false = .ok (u, "applied"))))
  ∧ (∀ text rule, (apply_rule text rule true = .ok (text, "already") ↔
        apply_rule text rule false = .ok (text, "already")))
  ∧ (∀ text rule, ((∃ e, apply_rule text rule true = .error e) ↔
        (∃ e, apply_rule text rule false = .error e)))
  ∧ (∀ text rule u s, apply_rule text rule true = .ok (u, s) → u = text)
  ∧ (∀ rules text t' sts, runRules rules text true [] = .ok (t', sts) → t' = text)
  ∧ (∀ w rules text nb, (main_model w rules text true nb).effects = []) := by
  refine ⟨fun text rule => ?_, fun text rule => ?_, fun text rule => ?_,
    fun text rule u s h => apply_rule_dry_text text rule u s h,
    fun rules text t' sts h => runRules_dry_text rules text [] t' sts h,
    fun w rules text nb => ?_⟩
  · by_cases hg : alreadyGuard rule text = true
    · rw [apply_rule_already_of_guard text rule true hg,
        apply_rule_already_of_guard text rule false hg]
      constructor
      · rintro ⟨u, h⟩
        injection h with h1
        have := congrArg Prod.snd h1
        simp at this
      · rintro ⟨u, h⟩
        injection h with h1
        have := congrArg Prod.snd h1
        simp at this
    · rw [Bool.not_eq_true] at hg
      rw [apply_rule_eval_of_guard_false text rule true hg,
        apply_rule_eval_of_guard_false text rule false hg]
      by_cases hc : rule.unpatched.count text ≠ rule.expected_replacements
      · rw [if_pos hc, if_pos hc]
        constructor
        · rintro ⟨u, h⟩; exact Except.noConfusion h
        · rintro ⟨u, h⟩; exact Except.noConfusion h
      · rw [if_neg hc, if_neg hc, if_pos rfl, if_neg (by simp)]
        constructor
        · intro _; exact ⟨_, rfl⟩
        · intro _; exact ⟨_, rfl⟩
  · by_cases hg : alreadyGuard rule text = true
    · rw [apply_rule_already_of_guard text rule true hg,
        apply_rule_already_of_guard text rule false hg]
    · rw [Bool.not_eq_true] at hg
      rw [apply_rule_eval_of_guard_false text rule true hg,
        apply_rule_eval_of_guard_false text rule false hg]
      by_cases hc : rule.unpatched.count text ≠ rule.expected_replacements
      · rw [if_pos hc, if_pos hc]
        constructor
        · intro h; exact Except.noConfusion h
        · intro h; exact Except.noConfusion h
      · rw [if_neg hc, if_neg hc, if_pos rfl, if_neg (by simp)]
        constructor
        · intro h
          injection h with h1
          have := congrArg Prod.snd h1
          simp at this
        · intro h
          injection h with h1
          have := congrArg Prod.snd h1
          simp at this
  · by_cases hg : alreadyGuard rule text = true
    · rw [apply_rule_already_of_guard text rule true hg,
        apply_rule_already_of_guard text rule false hg]
    · rw [Bool.not_eq_true] at hg
      rw [apply_rule_eval_of_guard_false text rule true hg,
        apply_rule_eval_of_guard_false text rule false hg]
      by_cases hc : rule.unpatched.count text ≠ rule.expected_replacements
      · rw [if_pos hc, if_pos hc]
        exact ⟨fun _ => ⟨_, rfl⟩, fun _ => ⟨_, rfl⟩⟩
      · rw [if_neg hc, if_neg hc, if_pos rfl, if_neg (by simp)]
        constructor
        · rintro ⟨e, h⟩; exact Except.noConfusion h
        · rintro ⟨e, h⟩; exact Except.noConfusion h
  · unfold main_model
    cases runRules rules text true [] with
    | error e => rfl
    | ok p => rfl

theorem C5_dry_run_purity_witness : ("ab" : String) = "ab" :=
  C5_dry_run_purity.2.2.2.1 "ab" ruleCount "ab" "would_apply" rfl

/-- A document on which the dry-run pass and the real run of the declared
rule list diverge: it carries one unpatched occurrence each for rules 1, 2
and 4, one unpatched occurrence of rule 3 whose replacement creates the
only unpatched occurrence of rule 5 — before rule 3 rewrites
A=B,C.type==="reasoning"&&(A=null) to A=B, the snippet
const A=B,C...(A=null).current;A&&(A.scrollTop=A.scrollHeight) does not
match rule 5's pattern; afterwards it does. -/
def c5doc : String :=
  "if(a.type===\"reasoning\")\x7bb&&b.push(a);continue\x7db&&c(\"explored\")d=()=>\x7be(f?\"preview\":\"collapsed\")\x7dif(!g)\x7bh(!1);return\x7dconst i=j.current;const A=B,C.type===\"reasoning\"&&(A=null).current;A&&(A.scrollTop=A.scrollHeight)"

set_option maxRecDepth 8000 in
/-- C5 counterexample: on c5doc the dry-run pass over the declared rule
sequence aborts at reasoning_autoscroll_user_scroll_flag with a
zero-match error (the rule's pattern does not match the original document
and no patched evidence exists), while the real run classifies and applies
every rule, including that one — rule 3's replacement creates the rule-5
match the dry run never sees.  So the dry-run pass does not yield, per
rule, the same classification as the real run: the real run yields APPLIED
where the dry run yields an error.  Behaviour cross-checked against
CPython re on the same document. -/
theorem C5_counterexample :
    runRules patches c5doc true []
      = .error (matchCountMsg reasoning_autoscroll_user_scroll_flag 0)
  ∧ (runRules patches c5doc false []).map (fun p => p.2)
      = .ok [("exploration_continuation_drop_reasoning", "applied"),
             ("exploration_no_autocollapse_on_finish", "applied"),
             ("show_reasoning_items_in_log", "applied"),
             ("reasoning_no_autocollapse_on_finish", "applied"),
             ("reasoning_autoscroll_user_scroll_flag", "applied")] :=
  ⟨rfl, rfl⟩

/-- C6: a real run whose rule loop succeeds and leaves the text equal to the
original reports "no changes" and performs no persistence step at all — no
bundle write, no validation, no repack, no backup and no archive overwrite. -/
theorem C6_no_changes_no_persistence (w : World) (rules : List PatchRule)
    (orig : String) (nb : Bool) (sts : List (String × String))
    (h : runRules rules orig false [] = .ok (orig, sts)) :
    main_model w rules orig false nb =
      ⟨[], statusLines sts ++ [noChangesMsg], .ok 0⟩ := by
  unfold main_model
  rw [h]
  simp

theorem C6_no_changes_witness :
    main_model wAll [ruleA] "p" false false =
      ⟨[], statusLines [("ruleA", "already")] ++ [noChangesMsg], .ok 0⟩ :=
  C6_no_changes_no_persistence wAll [ruleA] "p" false [("ruleA", "already")] rfl

/-- C8 counterexample: with a first rule classifying ALREADY and a second
rule failing, the run aborts with the failing rule's error and performs no
write — but it prints nothing: the status of the prior rule is recorded yet
never reported, because the status print loop sits after the whole rule
loop and the RuntimeError propagates out of main uncaught. -/
theorem C8_counterexample :
    (main_model wAll [ruleA, ruleFail] "p" false false).printed = []
  ∧ (main_model wAll [ruleA, ruleFail] "p" false false).effects = []
  ∧ (main_model wAll [ruleA, ruleFail] "p" false false).outcome
      = .error (replacedCountMsg ruleFail 0)
  ∧ apply_rule "p" ruleA false = .ok ("p", "already") :=
  ⟨rfl, rfl, rfl, rfl⟩

/-- C8 amended: when a rule's classification or application fails, the run
aborts at once: whatever rules follow the failing one are never evaluated
(the result does not depend on them), no effect is performed — in
particular no bundle or archive write — and the uncaught error carries the
failing rule's reason; the statuses of the prior rules, however, are not
included in the printed report, which is empty. -/
theorem C8_abort_on_failure (w : World) (pre post : List PatchRule)
    (rule : PatchRule) (t t' : String) (sts : List (String × String))
    (dry nb : Bool) (e : String)
    (hpre : runRules pre t dry [] = .ok (t', sts))
    (hfail : apply_rule t' rule dry = .error e) :
    main_model w (pre ++ rule :: post) t dry nb = ⟨[], [], .error e⟩ := by
  have hrun : runRules (pre ++ rule :: post) t dry [] = .error e := by
    rw [runRules_append, hpre]
    show runRules (rule :: post) t' dry sts = .error e
    unfold runRules
    rw [hfail]
  unfold main_model
  rw [hrun]

theorem C8_abort_witness :
    main_model wAll ([ruleA] ++ ruleFail :: [ruleA]) "p" false false
      = ⟨[], [], .error (replacedCountMsg ruleFail 0)⟩ :=
  C8_abort_on_failure wAll [ruleA] [ruleA] ruleFail "p" "p"
    [("ruleA", "already")] false false (replacedCountMsg ruleFail 0) rfl rfl

/-- C7: the destination archive is overwritten only after the whole chain
succeeded — rule loop, syntax validation, (unless skipped) beautify, repack
— and the backup write sits immediately before the overwrite in the effect
sequence; a backup is performed exactly when the overwrite is, so any
failure at or before repacking leaves both the original archive bytes and
the backup path untouched. -/
theorem C7_backup_before_overwrite (w : World) (rules : List PatchRule)
    (orig : String) (dry nb : Bool) :
    (Effect.overwriteArchive ∈ (main_model w rules orig dry nb).effects ↔
       Effect.writeBackup ∈ (main_model w rules orig dry nb).effects)
  ∧ (Effect.overwriteArchive ∈ (main_model w rules orig dry nb).effects →
       dry = false ∧ w.validateOk = true ∧ (nb = false → w.beautifyOk = true)
       ∧ w.repackOk = true
       ∧ (∃ t sts, runRules rules orig false [] = .ok (t, sts) ∧ (t == orig) = false)
       ∧ ∃ front, (main_model w rules orig dry nb).effects =
           front ++ [Effect.writeBackup, Effect.overwriteArchive])
  ∧ (Effect.writeBackup ∈ (main_model w rules orig dry nb).effects →
       w.validateOk = true ∧ (nb = false → w.beautifyOk = true)
       ∧ w.repackOk = true) := by
  unfold main_model
  cases hr : runRules rules orig dry [] with
  | error e => simp
  | ok p =>
      obtain ⟨text, sts⟩ := p
      cases dry with
      | true => simp
      | false =>
          by_cases ht : (text == orig) = true
          · simp [ht]
          · rw [Bool.not_eq_true] at ht
            cases nb with
            | true =>
                cases hv : w.validateOk with
                | false => simp [ht, hv]
                | true =>
                    cases hrp : w.repackOk with
                    | false => simp [ht, hv, hrp]
                    | true =>
                        simp only [ht, hv, hrp, Bool.false_eq_true, if_false,
                          Bool.not_true, Bool.false_and, Bool.and_false, if_true,
                          Bool.not_false]
                        refine ⟨by simp, fun _ => ?_, fun _ => ?_⟩
                        · exact ⟨by simp, by simp, by simp, by simp,
                            ⟨text, sts, hr, ht⟩,
                            ⟨[.writeBundle text, .validate, .repack], by simp⟩⟩
                        · exact ⟨by simp, by simp, by simp⟩
            | false =>
                cases hv : w.validateOk with
                | false => simp [ht, hv]
                | true =>
                    cases hb : w.beautifyOk with
                    | false => simp [ht, hv, hb]
                    | true =>
                        cases hrp : w.repackOk with
                        | false => simp [ht, hv, hb, hrp]
                        | true =>
                            simp only [ht, hv, hb, hrp, Bool.false_eq_true, if_false,
                              Bool.not_true, Bool.false_and, Bool.and_false, if_true,
                              Bool.not_false, Bool.true_and, Bool.and_true]
                            refine ⟨by simp, fun _ => ?_, fun _ => ?_⟩
                            · exact ⟨by simp, by simp, by simp, by simp,
                                ⟨text, sts, hr, ht⟩,
                                ⟨[.writeBundle text, .validate, .beautify, .repack],
                                  by simp⟩⟩
                            · exact ⟨by simp, by simp, by simp⟩

theorem C7_backup_witness :
    wAll.validateOk = true ∧ ((true : Bool) = false → wAll.beautifyOk = true)
  ∧ wAll.repackOk = true :=
  (C7_backup_before_overwrite wAll [ruleApply] "a" false true).2.2 (by decide)

/-- C9: apply_rule returns status ALREADY exactly when the rule's patched
matcher is defined and matches and the unpatched matcher does not — the
fallback ALREADY branches are unreachable, since their guards (zero
matches or zero replacements plus patched-matcher evidence) already imply
the primary short-circuit condition. -/
theorem C9_fallback_unreachable (text : String) (rule : PatchRule) (d : Bool) :
    (apply_rule text rule d = .ok (text, "already") ↔
      (patchedMatches rule text = true ∧ rule.unpatched.search text = false))
  ∧ ((rule.unpatched.count text = 0 ∧ patchedMatches rule text = true) →
      (patchedMatches rule text = true ∧ rule.unpatched.search text = false)) := by
  constructor
  · rw [apply_rule_already_iff]
    simp [alreadyGuard]
  · rintro ⟨hc, hp⟩
    exact ⟨hp, (search_false_iff_count_zero _ _).mpr hc⟩

theorem C9_fallback_witness : apply_rule "p" ruleA false = .ok ("p", "already") :=
  (C9_fallback_unreachable "p" ruleA false).1.mpr ⟨rfl, rfl⟩

/-- C10: a normal return of apply_rule carries a status among already,
would_apply and applied; would_apply occurs only in dry-run mode, applied
only in real-run mode, and with status already or would_apply the returned
text is exactly the input text. -/
theorem C10_status_range (text : String) (rule : PatchRule) (d : Bool) (u s : String)
    (h : apply_rule text rule d = .ok (u, s)) :
    (s = "already" ∨ s = "would_apply" ∨ s = "applied")
  ∧ (s = "would_apply" → d = true)
  ∧ (s = "applied" → d = false)
  ∧ ((s = "already" ∨ s = "would_apply") → u = text) := by
  by_cases hg : alreadyGuard rule text = true
  · rw [apply_rule_already_of_guard text rule d hg] at h
    injection h with h1
    have hu : u = text := (congrArg Prod.fst h1).symm
    have hs : s = "already" := (congrArg Prod.snd h1).symm
    subst hu; subst hs
    exact ⟨Or.inl rfl, fun habs => absurd habs (by decide),
      fun habs => absurd habs (by decide), fun _ => rfl⟩
  · rw [Bool.not_eq_true] at hg
    rw [apply_rule_eval_of_guard_false text rule d hg] at h
    by_cases hc : rule.unpatched.count text ≠ rule.expected_replacements
    · rw [if_pos hc] at h
      exact Except.noConfusion h
    · rw [if_neg hc] at h
      cases d with
      | true =>
          rw [if_pos rfl] at h
          injection h with h1
          have hu : u = text := (congrArg Prod.fst h1).symm
          have hs : s = "would_apply" := (congrArg Prod.snd h1).symm
          subst hu; subst hs
          exact ⟨Or.inr (Or.inl rfl), fun _ => rfl,
            fun habs => absurd habs (by decide), fun _ => rfl⟩
      | false =>
          rw [if_neg (by simp)] at h
          injection h with h1
          have hs : s = "applied" := (congrArg Prod.snd h1).symm
          subst hs
          refine ⟨Or.inr (Or.inr rfl), fun habs => absurd habs (by decide),
            fun _ => rfl, fun habs => ?_⟩
          rcases habs with h1' | h2'
          · exact absurd h1' (by decide)
          · exact absurd h2' (by decide)

theorem C10_status_range_witness :
    (("would_apply" : String) = "already" ∨ ("would_apply" : String) = "would_apply"
      ∨ ("would_apply" : String) = "applied")
  ∧ (("would_apply" : String) = "would_apply" → (true : Bool) = true)
  ∧ (("would_apply" : String) = "applied" → (true : Bool) = false)
  ∧ ((("would_apply" : String) = "already" ∨ ("would_apply" : String) = "would_apply")
      → ("a" : String) = "a") :=
  C10_status_range "a" ruleCount true "a" "would_apply" rfl
